import Mathlib

/-!
Shallow embedding of the node-flow editor's in-repo logic:
the node factory/registry (`src/components/Nodes/nodeFactory.js`) and the
drag-and-drop / selection glue of the `Flow` component and the palette item
(`NodeBlockComposer`).  JavaScript closures with a mutable counter are
modelled by explicit state passing; `throw` is modelled by `Except`.
-/

namespace NodeFlow

/-- A canvas position, as produced by the flow instance's projection. -/
structure Position where
  x : Int
  y : Int
deriving DecidableEq, Repr

/-- The settings components imported from the MessageNode / SelectNode modules.
They are opaque UI values to the factory; only their identity matters. -/
inductive SettingsComponent where
  | messageNodeSettings
  | selectNodeSettings
deriving DecidableEq, Repr

/-- Per-type default payload data of a node record. -/
inductive NodeData where
  | messageData (message : String)
  | selectData (item : Option String)
deriving DecidableEq, Repr

/-- The value of `settings.bind(null, { nodeId })`: the settings component
partially applied to the record `{ nodeId }`. -/
structure BoundRenderer where
  component : SettingsComponent
  nodeId : String
deriving DecidableEq, Repr

/-- The plain node record built by a factory. -/
structure Node where
  draggable : Bool
  selectable : Bool
  id : String
  type : String
  position : Position
  data : NodeData
  settingsRenderer : BoundRenderer
deriving DecidableEq, Repr

/-- The node defaults spread into every created record. -/
structure NodeDefaults where
  draggable : Bool
  selectable : Bool
deriving DecidableEq, Repr

/-- The `defaults` constant captured by `nodeFactory`. -/
def defaults : NodeDefaults :=
  { draggable := true, selectable := true }

/-- A factory closure returned by `nodeFactory`: its captured `identifier`,
`settings`, `dataComposer`, and the captured mutable `id` counter. -/
structure Factory where
  identifier : String
  settings : SettingsComponent
  dataComposer : String → NodeData
  counter : Nat

/-- `nodeFactory(identifier, settings, dataComposer)`: builds the closure
state with the id counter initialised to 1. -/
def nodeFactory (identifier : String) (settings : SettingsComponent)
    (dataComposer : String → NodeData) : Factory :=
  { identifier := identifier, settings := settings,
    dataComposer := dataComposer, counter := 1 }

/-- `getNodeId`: returns `identifier_id` for the current counter value and
post-increments the counter. -/
def getNodeId (f : Factory) : String × Factory :=
  (f.identifier ++ "_" ++ Nat.repr f.counter, { f with counter := f.counter + 1 })

/-- The node creator returned by `nodeFactory`: builds the record with the
defaults spread in, the generated id, the captured identifier as type, the
given position, the composed data and the bound settings renderer. -/
def Factory.create (f : Factory) (position : Position) : Node × Factory :=
  let r := getNodeId f
  ({ draggable := defaults.draggable,
     selectable := defaults.selectable,
     id := r.1,
     type := f.identifier,
     position := position,
     data := f.dataComposer r.1,
     settingsRenderer := { component := f.settings, nodeId := r.1 } },
   r.2)

/-- Modelled from the spec: the message-node type identifier is exported by
the MessageNode component, which is not under src/; the spec names it only
as "the message-node identifier", so a concrete non-empty string distinct
from the select-node identifier is chosen. -/
def MESSAGE_NODE_IDENTIFIER : String := "messageNode"

/-- Modelled from the spec: the select-node type identifier is exported by
the SelectNode component, which is not under src/; the spec names it only
as "the select-node identifier", so a concrete non-empty string distinct
from the message-node identifier is chosen. -/
def SELECT_NODE_IDENTIFIER : String := "selectNode"

/-- `messageNodeFactory`: the message-node factory with its default-data
composer. -/
def messageNodeFactory : Factory :=
  nodeFactory MESSAGE_NODE_IDENTIFIER SettingsComponent.messageNodeSettings
    (fun nodeId => NodeData.messageData ("Default message for " ++ nodeId))

/-- `selectNodeFactory`: the select-node factory with its default-data
composer. -/
def selectNodeFactory : Factory :=
  nodeFactory SELECT_NODE_IDENTIFIER SettingsComponent.selectNodeSettings
    (fun _ => NodeData.selectData none)

/-- The state of the module-level `nodeCreator` registry: both factory
closures with their independent counters. -/
structure RegistryState where
  messageFactory : Factory
  selectFactory : Factory

/-- The registry as it exists when the module is loaded: both counters at 1. -/
def initialRegistry : RegistryState :=
  { messageFactory := messageNodeFactory, selectFactory := selectNodeFactory }

/-- The registry state reached after the message factory has counted up to
`cm` and the select factory up to `cs`. -/
def registryAt (cm cs : Nat) : RegistryState :=
  { messageFactory := { messageNodeFactory with counter := cm },
    selectFactory := { selectNodeFactory with counter := cs } }

/-- Whether `type` is a key of the `nodeCreator` registry object. -/
def supported (type : String) : Bool :=
  type = MESSAGE_NODE_IDENTIFIER || type = SELECT_NODE_IDENTIFIER

/-- The registry lookup `nodeCreator[type]`: the factory registered under
`type`, when `type` is a key of the registry object. -/
def lookupFactory (st : RegistryState) (type : String) : Option Factory :=
  if type = MESSAGE_NODE_IDENTIFIER then some st.messageFactory
  else if type = SELECT_NODE_IDENTIFIER then some st.selectFactory
  else none

/-- `createNode(type, position)`: validates the arguments, looks the factory
up in the registry and calls it.  A thrown `Error` is an `Except.error`
carrying the message; a falsy `position` argument is `none`; a falsy `type`
string is the empty string. -/
def createNode (st : RegistryState) (type : String) (position : Option Position) :
    Except String (Node × RegistryState) :=
  if type = "" then
    Except.error "Node type is required"
  else
    match position with
    | none => Except.error "Node position is required"
    | some pos =>
      if type = MESSAGE_NODE_IDENTIFIER then
        let r := st.messageFactory.create pos
        Except.ok (r.1, { st with messageFactory := r.2 })
      else if type = SELECT_NODE_IDENTIFIER then
        let r := st.selectFactory.create pos
        Except.ok (r.1, { st with selectFactory := r.2 })
      else
        Except.error ("Node type: " ++ type ++ " is not supported")

/-- Running a list of `createNode` calls in order, starting from a registry
state: a call that throws produces no node and leaves the registry as it
was (the factory is only invoked after all checks pass). -/
def runCreates : RegistryState → List (String × Position) → List Node × RegistryState
  | st, [] => ([], st)
  | st, (t, p) :: rest =>
    match createNode st t (some p) with
    | Except.ok r =>
      let tail := runCreates r.2 rest
      (r.1 :: tail.1, tail.2)
    | Except.error _ => runCreates st rest

/-- Repeated calls of one factory closure on a list of positions. -/
def createSeq : Factory → List Position → List Node × Factory
  | f, [] => ([], f)
  | f, p :: ps =>
    let r := f.create p
    let rest := createSeq r.2 ps
    (r.1 :: rest.1, rest.2)

/-- Modelled from the spec: the data-transfer format constant lives in a
constants module that is not under src/; any fixed format string works. -/
def DATA_TRANSFER_TYPE : String := "application/reactflow"

/-- A browser `DataTransfer` store: format keys mapped to string values. -/
structure DataTransfer where
  entries : List (String × String)

/-- `dataTransfer.setData(format, value)`. -/
def DataTransfer.setData (dt : DataTransfer) (format value : String) : DataTransfer :=
  { entries := (format, value) :: dt.entries }

/-- `dataTransfer.getData(format)`: the stored value, or the empty string
when no value is stored under `format`. -/
def DataTransfer.getData (dt : DataTransfer) (format : String) : String :=
  match dt.entries.find? (fun e => e.1 = format) with
  | some e => e.2
  | none => ""

/-- The `dragHandler` of a palette item (`NodeBlockComposer`): writes the
item's identifier into the drag event's data transfer under
`DATA_TRANSFER_TYPE`. -/
def dragHandler (identifier : String) (dt : DataTransfer) : DataTransfer :=
  dt.setData DATA_TRANSFER_TYPE identifier

/-- An edge record; the flow component only stores and passes edges along. -/
structure Edge where
  id : String
  source : String
  target : String
deriving DecidableEq, Repr

/-- The client-side state visible to the `Flow` component: the factory
registry, the node store, the edge store and the selected node. -/
structure FlowState where
  registry : RegistryState
  nodes : List Node
  edges : List Edge
  selectedNode : Option Node

/-- Modelled from the spec: `addNode` of the node store (the store hooks are
not under src/); the spec says the new node is appended to the store. -/
def addNode (st : FlowState) (n : Node) : FlowState :=
  { st with nodes := st.nodes ++ [n] }

/-- Modelled from the spec: `setSelectedNode` of the node store (the store
hooks are not under src/); it overwrites the currently selected node. -/
def setSelectedNode (st : FlowState) (n : Option Node) : FlowState :=
  { st with selectedNode := n }

/-- A drop event: its data transfer and its client coordinates. -/
structure DropEvent where
  dataTransfer : DataTransfer
  clientX : Int
  clientY : Int

/-- The environment of the drop handler: the wrapper's bounding rectangle
and the flow instance's `project` function, both owned by the third-party
library. -/
structure FlowEnv where
  boundsLeft : Int
  boundsTop : Int
  project : Position → Position

/-- The position the drop handler passes to `createNode`: the client
coordinates relative to the wrapper, projected. -/
def dropPosition (env : FlowEnv) (ev : DropEvent) : Position :=
  env.project { x := ev.clientX - env.boundsLeft, y := ev.clientY - env.boundsTop }

/-- The `onDrop` handler: reads the type from the data transfer, returns
unchanged on a falsy type, otherwise creates a node at the projected
position and appends it to the node store.  An exception thrown by
`createNode` propagates, leaving the store untouched. -/
def onDrop (env : FlowEnv) (st : FlowState) (ev : DropEvent) :
    Except String FlowState :=
  let type := ev.dataTransfer.getData DATA_TRANSFER_TYPE
  if type = "" then
    Except.ok st
  else
    match createNode st.registry type (some (dropPosition env ev)) with
    | Except.ok r => Except.ok (addNode { st with registry := r.2 } r.1)
    | Except.error e => Except.error e

/-- The `onSelectionChange` handler: on a non-empty selection list, store
its first node as selected; on an empty list, do nothing. -/
def onSelectionChange (st : FlowState) (selNodes : List Node) : FlowState :=
  match selNodes with
  | [] => st
  | n :: _ => setSelectedNode st (some n)

/-- The `onNodesDelete` handler: sets the selected node to null. -/
def onNodesDelete (st : FlowState) : FlowState :=
  setSelectedNode st none

/-- The events the `Flow` component handles.  For `onNodesChange`,
`onEdgesChange` and `onConnect` the new lists computed by the third-party
helpers (`applyNodeChanges`, `addEdge`) are carried in the event, since the
handlers only forward them to `setNodes` / `setEdges`. -/
inductive FlowEvent where
  | drop (ev : DropEvent)
  | selectionChange (ns : List Node)
  | connect (es : List Edge)
  | nodesChange (ns : List Node)
  | edgesChange (es : List Edge)
  | nodesDelete
deriving Inhabited

/-- One handler dispatch of the `Flow` component.  A drop whose `createNode`
throws leaves the store unchanged (the exception escapes the handler). -/
def step (env : FlowEnv) (st : FlowState) (e : FlowEvent) : FlowState :=
  match e with
  | FlowEvent.drop ev =>
    match onDrop env st ev with
    | Except.ok st' => st'
    | Except.error _ => st
  | FlowEvent.selectionChange ns => onSelectionChange st ns
  | FlowEvent.connect es => { st with edges := es }
  | FlowEvent.nodesChange ns => { st with nodes := ns }
  | FlowEvent.edgesChange es => { st with edges := es }
  | FlowEvent.nodesDelete => onNodesDelete st

/-- The id the message factory generates at counter value `k`. -/
def msgId (k : Nat) : String := MESSAGE_NODE_IDENTIFIER ++ "_" ++ Nat.repr k

/-- The id the select factory generates at counter value `k`. -/
def selId (k : Nat) : String := SELECT_NODE_IDENTIFIER ++ "_" ++ Nat.repr k

/-- Decode a list of decimal digit characters back to a natural number;
used only to prove decimal numerals injective. -/
def decodeDigits (l : List Char) : Nat :=
  l.foldl (fun a c => 10 * a + (c.toNat - 48)) 0

theorem digitChar_decode (m : Nat) (h : m < 10) : (Nat.digitChar m).toNat - 48 = m := by
  interval_cases m <;> rfl

theorem toDigitsCore_append (fuel : Nat) :
    ∀ (n : Nat) (acc : List Char),
      Nat.toDigitsCore 10 fuel n acc = Nat.toDigitsCore 10 fuel n [] ++ acc := by
  induction fuel with
  | zero => intro n acc; simp [Nat.toDigitsCore]
  | succ f ih =>
    intro n acc
    simp only [Nat.toDigitsCore]
    by_cases h : n / 10 = 0
    · simp [h]
    · simp only [h, if_false]
      rw [ih (n / 10) (Nat.digitChar (n % 10) :: acc),
        ih (n / 10) [Nat.digitChar (n % 10)]]
      simp

theorem decodeDigits_append_singleton (l : List Char) (c : Char) :
    decodeDigits (l ++ [c]) = 10 * decodeDigits l + (c.toNat - 48) := by
  simp [decodeDigits, List.foldl_append]

theorem decode_toDigitsCore (fuel : Nat) :
    ∀ n : Nat, n < fuel → decodeDigits (Nat.toDigitsCore 10 fuel n []) = n := by
  induction fuel with
  | zero => intro n h; omega
  | succ f ih =>
    intro n h
    simp only [Nat.toDigitsCore]
    by_cases h10 : n / 10 = 0
    · have hn : n < 10 := by omega
      simp [h10, decodeDigits, digitChar_decode (n % 10) (by omega)]
      omega
    · simp only [h10, if_false]
      rw [toDigitsCore_append f (n / 10) [Nat.digitChar (n % 10)],
        decodeDigits_append_singleton,
        ih (n / 10) (by omega),
        digitChar_decode (n % 10) (by omega)]
      omega

theorem repr_inj (a b : Nat) (h : Nat.repr a = Nat.repr b) : a = b := by
  have hd : (Nat.toDigits 10 a) = (Nat.toDigits 10 b) := by
    have := congrArg String.data h
    simpa [Nat.repr, List.asString] using this
  have ha := decode_toDigitsCore (a + 1) a (by omega)
  have hb := decode_toDigitsCore (b + 1) b (by omega)
  simp only [Nat.toDigits] at hd
  rw [hd] at ha
  rw [ha] at hb
  exact hb.symm ▸ rfl

theorem msgId_inj (j k : Nat) (h : msgId j = msgId k) : j = k := by
  have hd := congrArg String.data h
  simp only [msgId, String.data_append, MESSAGE_NODE_IDENTIFIER] at hd
  have h2 := List.append_cancel_left hd
  exact repr_inj j k (String.ext h2)

theorem selId_inj (j k : Nat) (h : selId j = selId k) : j = k := by
  have hd := congrArg String.data h
  simp only [selId, String.data_append, SELECT_NODE_IDENTIFIER] at hd
  have h2 := List.append_cancel_left hd
  exact repr_inj j k (String.ext h2)

theorem msgId_ne_selId (j k : Nat) : msgId j ≠ selId k := by
  intro h
  have hd := congrArg String.data h
  simp [msgId, selId, MESSAGE_NODE_IDENTIFIER, SELECT_NODE_IDENTIFIER] at hd

theorem createNode_msg (st : RegistryState) (p : Position) :
    createNode st MESSAGE_NODE_IDENTIFIER (some p) =
      Except.ok ((st.messageFactory.create p).1,
        { st with messageFactory := (st.messageFactory.create p).2 }) := by
  simp only [createNode]
  rw [if_neg (by decide)]
  simp

theorem createNode_sel (st : RegistryState) (p : Position) :
    createNode st SELECT_NODE_IDENTIFIER (some p) =
      Except.ok ((st.selectFactory.create p).1,
        { st with selectFactory := (st.selectFactory.create p).2 }) := by
  simp only [createNode]
  rw [if_neg (by decide), if_neg (by decide)]
  simp

theorem createNode_ok_inv (st : RegistryState) (t : String) (po : Option Position)
    (n : Node) (st' : RegistryState)
    (h : createNode st t po = Except.ok (n, st')) :
    t ≠ "" ∧ ∃ p, po = some p ∧
      ((t = MESSAGE_NODE_IDENTIFIER ∧ n = (st.messageFactory.create p).1 ∧
          st' = { st with messageFactory := (st.messageFactory.create p).2 })
        ∨ (t = SELECT_NODE_IDENTIFIER ∧ n = (st.selectFactory.create p).1 ∧
          st' = { st with selectFactory := (st.selectFactory.create p).2 })) := by
  simp only [createNode] at h
  by_cases h0 : t = ""
  · rw [if_pos h0] at h
    exact absurd h (by simp)
  · rw [if_neg h0] at h
    match po with
    | none => exact absurd h (by simp)
    | some p =>
      dsimp only at h
      refine ⟨h0, p, rfl, ?_⟩
      by_cases hm : t = MESSAGE_NODE_IDENTIFIER
      · rw [if_pos hm] at h
        injection h with h2
        exact Or.inl ⟨hm, (congrArg Prod.fst h2).symm, (congrArg Prod.snd h2).symm⟩
      · rw [if_neg hm] at h
        by_cases hs : t = SELECT_NODE_IDENTIFIER
        · rw [if_pos hs] at h
          injection h with h2
          exact Or.inr ⟨hs, (congrArg Prod.fst h2).symm, (congrArg Prod.snd h2).symm⟩
        · rw [if_neg hs] at h
          exact absurd h (by simp)

theorem createNode_empty (st : RegistryState) (po : Option Position) :
    createNode st "" po = Except.error "Node type is required" := rfl

theorem createNode_none (st : RegistryState) (t : String) (h : t ≠ "") :
    createNode st t none = Except.error "Node position is required" := by
  simp only [createNode]
  rw [if_neg h]

theorem createNode_unsupported (st : RegistryState) (t : String) (p : Position)
    (h0 : t ≠ "") (hs : supported t = false) :
    createNode st t (some p) =
      Except.error ("Node type: " ++ t ++ " is not supported") := by
  have hm : t ≠ MESSAGE_NODE_IDENTIFIER := by
    intro h; rw [h] at hs; simp [supported] at hs
  have hsel : t ≠ SELECT_NODE_IDENTIFIER := by
    intro h; rw [h] at hs; simp [supported] at hs
  simp only [createNode]
  rw [if_neg h0]
  rw [if_neg hm, if_neg hsel]

theorem createNode_supported_ok (st : RegistryState) (t : String) (p : Position)
    (h : supported t = true) :
    ∃ n st', createNode st t (some p) = Except.ok (n, st') := by
  have h2 : t = MESSAGE_NODE_IDENTIFIER ∨ t = SELECT_NODE_IDENTIFIER := by
    simpa [supported] using h
  rcases h2 with h2 | h2 <;> subst h2
  · exact ⟨_, _, createNode_msg st p⟩
  · exact ⟨_, _, createNode_sel st p⟩

/-- C1: for every supported type identifier (the message-node or the
select-node identifier) and every position, `createNode` returns the node
record produced by that type's registered factory applied to the position,
and that record's `type` field equals the identifier and its `position`
field equals the given position. -/
theorem claim1_createNode_uses_factory (cm cs : Nat) (t : String) (p : Position)
    (h : t = MESSAGE_NODE_IDENTIFIER ∨ t = SELECT_NODE_IDENTIFIER) :
    ∃ f st', lookupFactory (registryAt cm cs) t = some f ∧
      createNode (registryAt cm cs) t (some p) = Except.ok ((f.create p).1, st') ∧
      (f.create p).1.type = t ∧ (f.create p).1.position = p := by
  rcases h with h | h <;> subst h
  · exact ⟨(registryAt cm cs).messageFactory, _, rfl, createNode_msg _ p, rfl, rfl⟩
  · refine ⟨(registryAt cm cs).selectFactory, _, ?_, createNode_sel _ p, rfl, rfl⟩
    simp only [lookupFactory]
    rw [if_neg (by decide)]
    simp

/-- C3: every node record returned by `createNode`, for any registry state,
type and position argument, carries the default flags `draggable = true`
and `selectable = true`. -/
theorem claim3_default_flags (st : RegistryState) (t : String) (po : Option Position)
    (n : Node) (st' : RegistryState) (h : createNode st t po = Except.ok (n, st')) :
    n.draggable = true ∧ n.selectable = true := by
  obtain ⟨-, p, -, ⟨-, rfl, -⟩ | ⟨-, rfl, -⟩⟩ := createNode_ok_inv st t po n st' h
  · exact ⟨rfl, rfl⟩
  · exact ⟨rfl, rfl⟩

/-- C4: the default payload data of a created node is determined by its
type: a message node's data is the default message mentioning the node's
own generated id, and a select node's data is a null item. -/
theorem claim4_default_data (cm cs : Nat) (t : String) (po : Option Position)
    (n : Node) (st' : RegistryState)
    (h : createNode (registryAt cm cs) t po = Except.ok (n, st')) :
    (t = MESSAGE_NODE_IDENTIFIER →
      n.data = NodeData.messageData ("Default message for " ++ n.id)) ∧
    (t = SELECT_NODE_IDENTIFIER → n.data = NodeData.selectData none) := by
  obtain ⟨-, p, -, ⟨ht, rfl, -⟩ | ⟨ht, rfl, -⟩⟩ := createNode_ok_inv _ _ _ _ _ h
  · subst ht
    exact ⟨fun _ => rfl, fun hsel => absurd hsel (by decide)⟩
  · subst ht
    exact ⟨fun hmsg => absurd hmsg (by decide), fun _ => rfl⟩

/-- C5: the `settingsRenderer` of every node record returned by
`createNode` is the node type's settings component partially applied to the
record containing the node's own id. -/
theorem claim5_settings_renderer (cm cs : Nat) (t : String) (po : Option Position)
    (n : Node) (st' : RegistryState)
    (h : createNode (registryAt cm cs) t po = Except.ok (n, st')) :
    n.settingsRenderer.nodeId = n.id ∧
    (t = MESSAGE_NODE_IDENTIFIER →
      n.settingsRenderer =
        { component := SettingsComponent.messageNodeSettings, nodeId := n.id }) ∧
    (t = SELECT_NODE_IDENTIFIER →
      n.settingsRenderer =
        { component := SettingsComponent.selectNodeSettings, nodeId := n.id }) := by
  obtain ⟨-, p, -, ⟨ht, rfl, -⟩ | ⟨ht, rfl, -⟩⟩ := createNode_ok_inv _ _ _ _ _ h
  · subst ht
    exact ⟨rfl, fun _ => rfl, fun hsel => absurd hsel (by decide)⟩
  · subst ht
    exact ⟨rfl, fun hmsg => absurd hmsg (by decide), fun _ => rfl⟩

/-- C8: `createNode` throws exactly when the type is falsy (message "Node
type is required"), or the position is falsy (message "Node position is
required"), or the type is truthy but not a registry key (message "Node
type: ... is not supported"); for a supported type and a truthy position it
returns a node record. -/
theorem claim8_createNode_errors (st : RegistryState) (t : String) (po : Option Position) :
    (t = "" → createNode st t po = Except.error "Node type is required") ∧
    (t ≠ "" → po = none → createNode st t po = Except.error "Node position is required") ∧
    (t ≠ "" → supported t = false → ∀ p, po = some p →
      createNode st t po = Except.error ("Node type: " ++ t ++ " is not supported")) ∧
    (supported t = true → ∀ p, po = some p →
      ∃ n st', createNode st t po = Except.ok (n, st')) ∧
    ((∃ msg, createNode st t po = Except.error msg) ↔
      (t = "" ∨ po = none ∨ supported t = false)) := by
  refine ⟨?_, ?_, ?_, ?_, ?_, ?_⟩
  · intro h; subst h; exact createNode_empty st po
  · intro h hn; subst hn; exact createNode_none st t h
  · intro h hs p hp; subst hp; exact createNode_unsupported st t p h hs
  · intro hs p hp; subst hp; exact createNode_supported_ok st t p hs
  · rintro ⟨msg, hmsg⟩
    by_cases h0 : t = ""
    · exact Or.inl h0
    · match po with
      | none => exact Or.inr (Or.inl rfl)
      | some p =>
        by_cases hs : supported t = true
        · obtain ⟨n, st', hok⟩ := createNode_supported_ok st t p hs
          rw [hok] at hmsg
          exact absurd hmsg (by simp)
        · exact Or.inr (Or.inr (by simpa using hs))
  · rintro (h0 | hn | hs)
    · exact ⟨_, h0 ▸ createNode_empty st po⟩
    · by_cases h0 : t = ""
      · exact ⟨_, h0 ▸ createNode_empty st po⟩
      · exact ⟨_, hn ▸ createNode_none st t h0⟩
    · by_cases h0 : t = ""
      · exact ⟨_, h0 ▸ createNode_empty st po⟩
      · match po with
        | none => exact ⟨_, createNode_none st t h0⟩
        | some p => exact ⟨_, createNode_unsupported st t p h0 hs⟩

theorem create_id (f : Factory) (p : Position) :
    (f.create p).1.id = f.identifier ++ "_" ++ Nat.repr f.counter := rfl

theorem create_counter (f : Factory) (p : Position) :
    (f.create p).2.counter = f.counter + 1 := rfl

theorem create_identifier (f : Factory) (p : Position) :
    (f.create p).2.identifier = f.identifier := rfl

theorem createSeq_length (f : Factory) (ps : List Position) :
    (createSeq f ps).1.length = ps.length := by
  induction ps generalizing f with
  | nil => simp [createSeq]
  | cons p ps ih => simp [createSeq, ih]

theorem createSeq_get_id (ps : List Position) :
    ∀ (f : Factory) (k : Nat) (h : k < (createSeq f ps).1.length),
      ((createSeq f ps).1.get ⟨k, h⟩).id =
        f.identifier ++ "_" ++ Nat.repr (f.counter + k) := by
  induction ps with
  | nil => intro f k h; simp [createSeq] at h
  | cons p ps ih =>
    intro f k h
    match k with
    | 0 => simp [createSeq, create_id]
    | k + 1 =>
      have h2 : k < (createSeq (f.create p).2 ps).1.length := by
        have := h
        simp [createSeq] at this
        simpa [createSeq_length] using this
      have := ih (f.create p).2 k h2
      simp only [createSeq, List.get] at this ⊢
      rw [this, create_identifier, create_counter]
      have harith : f.counter + 1 + k = f.counter + (k + 1) := by omega
      rw [harith]

/-- C2: for every factory created by `nodeFactory` with identifier `I`, the
id of the node produced by its call number `k + 1` (counting from 1, so at
zero-based index `k`) is `I` followed by an underscore followed by the
decimal numeral of `k + 1`; the counter starts at 1 and each creation
increments it by exactly 1. -/
theorem claim2_sequential_ids (I : String) (s : SettingsComponent)
    (d : String → NodeData) (ps : List Position) (k : Nat)
    (h : k < (createSeq (nodeFactory I s d) ps).1.length) :
    ((createSeq (nodeFactory I s d) ps).1.get ⟨k, h⟩).id = I ++ "_" ++ Nat.repr (k + 1) ∧
    (nodeFactory I s d).counter = 1 ∧
    (∀ (f : Factory) (p : Position), (f.create p).2.counter = f.counter + 1) := by
  refine ⟨?_, rfl, fun f p => rfl⟩
  rw [createSeq_get_id]
  have : (nodeFactory I s d).counter + k = k + 1 := by
    simp [nodeFactory]
    omega
  rw [this]
  rfl

theorem onDrop_appends_aux (env : FlowEnv) (st : FlowState) (ev : DropEvent)
    (h1 : ev.dataTransfer.getData DATA_TRANSFER_TYPE ≠ "")
    (h2 : supported (ev.dataTransfer.getData DATA_TRANSFER_TYPE) = true) :
    ∃ n reg',
      createNode st.registry (ev.dataTransfer.getData DATA_TRANSFER_TYPE)
        (some (dropPosition env ev)) = Except.ok (n, reg') ∧
      onDrop env st ev = Except.ok
        { registry := reg', nodes := st.nodes ++ [n],
          edges := st.edges, selectedNode := st.selectedNode } := by
  obtain ⟨n, reg', hok⟩ :=
    createNode_supported_ok st.registry (ev.dataTransfer.getData DATA_TRANSFER_TYPE)
      (dropPosition env ev) h2
  refine ⟨n, reg', hok, ?_⟩
  simp only [onDrop]
  rw [if_neg h1, hok]
  rfl

/-- C6: for every drop event whose data-transfer payload carries a
supported, non-empty type identifier, `onDrop` appends exactly the one node
built by `createNode` at the projected drop position to the node store, and
leaves the existing nodes, the edge list and the selected node unchanged. -/
theorem claim6_onDrop_appends (env : FlowEnv) (st : FlowState) (ev : DropEvent)
    (h1 : ev.dataTransfer.getData DATA_TRANSFER_TYPE ≠ "")
    (h2 : supported (ev.dataTransfer.getData DATA_TRANSFER_TYPE) = true) :
    ∃ n reg',
      createNode st.registry (ev.dataTransfer.getData DATA_TRANSFER_TYPE)
        (some (dropPosition env ev)) = Except.ok (n, reg') ∧
      onDrop env st ev = Except.ok
        { registry := reg', nodes := st.nodes ++ [n],
          edges := st.edges, selectedNode := st.selectedNode } :=
  onDrop_appends_aux env st ev h1 h2

theorem dragHandler_getData (t : String) (dt : DataTransfer) :
    (dragHandler t dt).getData DATA_TRANSFER_TYPE = t := by
  simp [dragHandler, DataTransfer.setData, DataTransfer.getData, List.find?]

/-- C7: drag-start and drop round-trip on the type identifier: the value a
palette item with identifier `t` writes into the drag data transfer is `t`,
the drop handler reads back exactly `t`, and the node created by the drop
has `type = t` (for any reachable registry state). -/
theorem claim7_drag_drop_roundtrip (t : String) (dt : DataTransfer) (env : FlowEnv)
    (st : FlowState) (x y : Int) (cm cs : Nat)
    (hreg : st.registry = registryAt cm cs) (h : supported t = true) :
    (dragHandler t dt).getData DATA_TRANSFER_TYPE = t ∧
    ∃ n reg',
      onDrop env st (DropEvent.mk (dragHandler t dt) x y) = Except.ok
        { registry := reg', nodes := st.nodes ++ [n],
          edges := st.edges, selectedNode := st.selectedNode } ∧
      n.type = t := by
  refine ⟨dragHandler_getData t dt, ?_⟩
  have hget : (DropEvent.mk (dragHandler t dt) x y).dataTransfer.getData DATA_TRANSFER_TYPE
      = t := dragHandler_getData t dt
  have h1 : (DropEvent.mk (dragHandler t dt) x y).dataTransfer.getData DATA_TRANSFER_TYPE
      ≠ "" := by
    rw [hget]
    intro he
    rw [he] at h
    simp [supported, MESSAGE_NODE_IDENTIFIER, SELECT_NODE_IDENTIFIER] at h
  have h2 : supported ((DropEvent.mk (dragHandler t dt) x
      y).dataTransfer.getData DATA_TRANSFER_TYPE) = true := by
    rw [hget]; exact h
  obtain ⟨n, reg', hok, hdrop⟩ :=
    onDrop_appends_aux env st (DropEvent.mk (dragHandler t dt) x y) h1 h2
  refine ⟨n, reg', hdrop, ?_⟩
  rw [hget] at hok
  obtain ⟨-, p, -, ⟨ht, rfl, -⟩ | ⟨ht, rfl, -⟩⟩ :=
    createNode_ok_inv st.registry t _ n reg' hok
  · rw [hreg]; exact ht.symm
  · rw [hreg]; exact ht.symm

theorem onDrop_selectedNode (env : FlowEnv) (st : FlowState) (ev : DropEvent)
    (st' : FlowState) (h : onDrop env st ev = Except.ok st') :
    st'.selectedNode = st.selectedNode := by
  simp only [onDrop] at h
  by_cases h0 : ev.dataTransfer.getData DATA_TRANSFER_TYPE = ""
  · rw [if_pos h0] at h
    injection h with h2
    rw [h2.symm]
  · rw [if_neg h0] at h
    rcases hc : createNode st.registry (ev.dataTransfer.getData DATA_TRANSFER_TYPE)
        (some (dropPosition env ev)) with msg | r
    · rw [hc] at h
      exact absurd h (by simp)
    · rw [hc] at h
      injection h with h2
      rw [h2.symm]
      rfl

theorem step_selectedNode_none (env : FlowEnv) (st : FlowState) (e : FlowEvent)
    (h : (step env st e).selectedNode = none) :
    st.selectedNode = none ∨ e = FlowEvent.nodesDelete := by
  match e with
  | FlowEvent.drop ev =>
    refine Or.inl ?_
    simp only [step] at h
    rcases hd : onDrop env st ev with msg | st'
    · rw [hd] at h
      exact h
    · rw [hd] at h
      rw [← onDrop_selectedNode env st ev st' hd]
      exact h
  | FlowEvent.selectionChange ns =>
    match ns with
    | [] => exact Or.inl h
    | n :: rest =>
      simp [step, onSelectionChange, setSelectedNode] at h
  | FlowEvent.connect es => exact Or.inl h
  | FlowEvent.nodesChange ns => exact Or.inl h
  | FlowEvent.edgesChange es => exact Or.inl h
  | FlowEvent.nodesDelete => exact Or.inr rfl

/-- C10: a selection-change event with a non-empty node list sets the
selected node to the first node of the list; one with an empty list leaves
the selected node unchanged; the node-deletion handler sets it to null, and
no other handler dispatch ever sets a non-null selected node to null. -/
theorem claim10_selected_node (st : FlowState) (n : Node) (ns : List Node)
    (env : FlowEnv) (e : FlowEvent) :
    (onSelectionChange st (n :: ns)).selectedNode = some n ∧
    (onSelectionChange st []).selectedNode = st.selectedNode ∧
    (onNodesDelete st).selectedNode = none ∧
    ((step env st e).selectedNode = none →
      st.selectedNode = none ∨ e = FlowEvent.nodesDelete) := by
  exact ⟨rfl, rfl, rfl, step_selectedNode_none env st e⟩

theorem registry_step_msg (cm cs : Nat) (p : Position) :
    { registryAt cm cs with
      messageFactory := ((registryAt cm cs).messageFactory.create p).2 } =
      registryAt (cm + 1) cs := rfl

theorem registry_step_sel (cm cs : Nat) (p : Position) :
    { registryAt cm cs with
      selectFactory := ((registryAt cm cs).selectFactory.create p).2 } =
      registryAt cm (cs + 1) := rfl

theorem msg_create_id (cm cs : Nat) (p : Position) :
    ((registryAt cm cs).messageFactory.create p).1.id = msgId cm := rfl

theorem sel_create_id (cm cs : Nat) (p : Position) :
    ((registryAt cm cs).selectFactory.create p).1.id = selId cs := rfl

theorem runCreates_id_mem (l : List (String × Position)) :
    ∀ cm cs, ∀ n ∈ (runCreates (registryAt cm cs) l).1,
      (∃ k, cm ≤ k ∧ n.id = msgId k) ∨ (∃ k, cs ≤ k ∧ n.id = selId k) := by
  induction l with
  | nil => intro cm cs n hn; simp [runCreates] at hn
  | cons hd tl ih =>
    intro cm cs n hn
    obtain ⟨t, p⟩ := hd
    simp only [runCreates] at hn
    by_cases h0 : t = ""
    · rw [h0, createNode_empty] at hn
      exact ih cm cs n hn
    · by_cases hm : t = MESSAGE_NODE_IDENTIFIER
      · rw [hm, createNode_msg, registry_step_msg] at hn
        rcases List.mem_cons.mp hn with hn | hn
        · exact Or.inl ⟨cm, le_refl cm, by rw [hn, msg_create_id]⟩
        · rcases ih (cm + 1) cs n hn with ⟨k, hk, hid⟩ | ⟨k, hk, hid⟩
          · exact Or.inl ⟨k, by omega, hid⟩
          · exact Or.inr ⟨k, hk, hid⟩
      · by_cases hs : t = SELECT_NODE_IDENTIFIER
        · rw [hs, createNode_sel, registry_step_sel] at hn
          rcases List.mem_cons.mp hn with hn | hn
          · exact Or.inr ⟨cs, le_refl cs, by rw [hn, sel_create_id]⟩
          · rcases ih cm (cs + 1) n hn with ⟨k, hk, hid⟩ | ⟨k, hk, hid⟩
            · exact Or.inl ⟨k, hk, hid⟩
            · exact Or.inr ⟨k, by omega, hid⟩
        · rw [createNode_unsupported _ _ _ h0 (by simp [supported, hm, hs])] at hn
          exact ih cm cs n hn

theorem runCreates_ids_pairwise (l : List (String × Position)) :
    ∀ cm cs, ((runCreates (registryAt cm cs) l).1.map Node.id).Pairwise (· ≠ ·) := by
  induction l with
  | nil => intro cm cs; simp [runCreates]
  | cons hd tl ih =>
    intro cm cs
    obtain ⟨t, p⟩ := hd
    simp only [runCreates]
    by_cases h0 : t = ""
    · rw [h0, createNode_empty]
      exact ih cm cs
    · by_cases hm : t = MESSAGE_NODE_IDENTIFIER
      · rw [hm, createNode_msg, registry_step_msg]
        simp only [List.map_cons, List.pairwise_cons]
        refine ⟨?_, ih (cm + 1) cs⟩
        intro b hb
        obtain ⟨n, hn, rfl⟩ := List.mem_map.mp hb
        rw [msg_create_id]
        rcases runCreates_id_mem tl (cm + 1) cs n hn with ⟨k, hk, hid⟩ | ⟨k, hk, hid⟩
        · rw [hid]
          intro he
          have := msgId_inj cm k he
          omega
        · rw [hid]
          exact msgId_ne_selId cm k
      · by_cases hs : t = SELECT_NODE_IDENTIFIER
        · rw [hs, createNode_sel, registry_step_sel]
          simp only [List.map_cons, List.pairwise_cons]
          refine ⟨?_, ih cm (cs + 1)⟩
          intro b hb
          obtain ⟨n, hn, rfl⟩ := List.mem_map.mp hb
          rw [sel_create_id]
          rcases runCreates_id_mem tl cm (cs + 1) n hn with ⟨k, hk, hid⟩ | ⟨k, hk, hid⟩
          · rw [hid]
            intro he
            exact msgId_ne_selId k cs he.symm
          · rw [hid]
            intro he
            have := selId_inj cs k he
            omega
        · rw [createNode_unsupported _ _ _ h0 (by simp [supported, hm, hs])]
          exact ih cm cs

/-- C9: the ids of the nodes returned by any finite sequence of successful
`createNode` calls, in any interleaving of types, are pairwise distinct;
each factory owns an independent counter and creating a node of one type
never advances the other type's counter. -/
theorem claim9_ids_unique (l : List (String × Position)) (cm cs : Nat) (p : Position) :
    ((runCreates initialRegistry l).1.map Node.id).Pairwise (· ≠ ·) ∧
    (∀ n st', createNode (registryAt cm cs) MESSAGE_NODE_IDENTIFIER (some p) =
        Except.ok (n, st') →
      st'.messageFactory.counter = cm + 1 ∧ st'.selectFactory.counter = cs) ∧
    (∀ n st', createNode (registryAt cm cs) SELECT_NODE_IDENTIFIER (some p) =
        Except.ok (n, st') →
      st'.selectFactory.counter = cs + 1 ∧ st'.messageFactory.counter = cm) := by
  refine ⟨?_, ?_, ?_⟩
  · have h : initialRegistry = registryAt 1 1 := rfl
    rw [h]
    exact runCreates_ids_pairwise l 1 1
  · intro n st' h
    rw [createNode_msg, registry_step_msg] at h
    injection h with h2
    injection h2 with ha hb
    subst hb
    exact ⟨rfl, rfl⟩
  · intro n st' h
    rw [createNode_sel, registry_step_sel] at h
    injection h with h2
    injection h2 with ha hb
    subst hb
    exact ⟨rfl, rfl⟩

theorem claim1_witness :
    ∃ f st', lookupFactory (registryAt 1 1) MESSAGE_NODE_IDENTIFIER = some f ∧
      createNode (registryAt 1 1) MESSAGE_NODE_IDENTIFIER (some { x := 0, y := 0 }) =
        Except.ok ((f.create { x := 0, y := 0 }).1, st') ∧
      (f.create { x := 0, y := 0 }).1.type = MESSAGE_NODE_IDENTIFIER ∧
      (f.create { x := 0, y := 0 }).1.position = { x := 0, y := 0 } :=
  claim1_createNode_uses_factory 1 1 MESSAGE_NODE_IDENTIFIER { x := 0, y := 0 } (Or.inl rfl)

theorem claim2_witness :
    ∃ h : 1 < (createSeq (nodeFactory "m" SettingsComponent.messageNodeSettings
        (fun s2 => NodeData.messageData s2))
        [{ x := 0, y := 0 }, { x := 1, y := 1 }]).1.length,
      ((createSeq (nodeFactory "m" SettingsComponent.messageNodeSettings
        (fun s2 => NodeData.messageData s2))
        [{ x := 0, y := 0 }, { x := 1, y := 1 }]).1.get ⟨1, h⟩).id =
        "m" ++ "_" ++ Nat.repr 2 :=
  ⟨by decide,
    (claim2_sequential_ids "m" SettingsComponent.messageNodeSettings
      (fun s2 => NodeData.messageData s2)
      [{ x := 0, y := 0 }, { x := 1, y := 1 }] 1 (by decide)).1⟩

theorem claim3_witness :
    ((initialRegistry.messageFactory.create { x := 0, y := 0 }).1).draggable = true ∧
    ((initialRegistry.messageFactory.create { x := 0, y := 0 }).1).selectable = true :=
  claim3_default_flags initialRegistry MESSAGE_NODE_IDENTIFIER (some { x := 0, y := 0 })
    ((initialRegistry.messageFactory.create { x := 0, y := 0 }).1)
    { initialRegistry with
      messageFactory := (initialRegistry.messageFactory.create { x := 0, y := 0 }).2 }
    (by rfl)

theorem claim4_witness :
    ((registryAt 1 1).messageFactory.create { x := 0, y := 0 }).1.data =
      NodeData.messageData ("Default message for " ++
        ((registryAt 1 1).messageFactory.create { x := 0, y := 0 }).1.id) :=
  (claim4_default_data 1 1 MESSAGE_NODE_IDENTIFIER (some { x := 0, y := 0 })
    ((registryAt 1 1).messageFactory.create { x := 0, y := 0 }).1
    { registryAt 1 1 with
      messageFactory := ((registryAt 1 1).messageFactory.create { x := 0, y := 0 }).2 }
    (by rfl)).1 rfl

theorem claim5_witness :
    ((registryAt 1 1).messageFactory.create { x := 0, y := 0 }).1.settingsRenderer =
      { component := SettingsComponent.messageNodeSettings,
        nodeId := ((registryAt 1 1).messageFactory.create { x := 0, y := 0 }).1.id } :=
  (claim5_settings_renderer 1 1 MESSAGE_NODE_IDENTIFIER (some { x := 0, y := 0 })
    ((registryAt 1 1).messageFactory.create { x := 0, y := 0 }).1
    { registryAt 1 1 with
      messageFactory := ((registryAt 1 1).messageFactory.create { x := 0, y := 0 }).2 }
    (by rfl)).2.1 rfl

theorem claim6_witness :
    ∃ n reg',
      createNode initialRegistry
        ((DataTransfer.mk [(DATA_TRANSFER_TYPE, MESSAGE_NODE_IDENTIFIER)]).getData
          DATA_TRANSFER_TYPE)
        (some (dropPosition (FlowEnv.mk 0 0 (fun q => q))
          (DropEvent.mk (DataTransfer.mk [(DATA_TRANSFER_TYPE, MESSAGE_NODE_IDENTIFIER)]) 0 0)))
        = Except.ok (n, reg') ∧
      onDrop (FlowEnv.mk 0 0 (fun q => q))
        (FlowState.mk initialRegistry [] [] none)
        (DropEvent.mk (DataTransfer.mk [(DATA_TRANSFER_TYPE, MESSAGE_NODE_IDENTIFIER)]) 0 0) =
        Except.ok { registry := reg', nodes := [] ++ [n], edges := [], selectedNode := none } :=
  claim6_onDrop_appends (FlowEnv.mk 0 0 (fun q => q))
    (FlowState.mk initialRegistry [] [] none)
    (DropEvent.mk (DataTransfer.mk [(DATA_TRANSFER_TYPE, MESSAGE_NODE_IDENTIFIER)]) 0 0)
    (by decide) (by decide)

theorem claim7_witness :
    (dragHandler MESSAGE_NODE_IDENTIFIER (DataTransfer.mk [])).getData DATA_TRANSFER_TYPE =
      MESSAGE_NODE_IDENTIFIER ∧
    ∃ n reg',
      onDrop (FlowEnv.mk 0 0 (fun q => q)) (FlowState.mk initialRegistry [] [] none)
        (DropEvent.mk (dragHandler MESSAGE_NODE_IDENTIFIER (DataTransfer.mk [])) 0 0) = Except.ok
        { registry := reg', nodes := [] ++ [n], edges := [], selectedNode := none } ∧
      n.type = MESSAGE_NODE_IDENTIFIER :=
  claim7_drag_drop_roundtrip MESSAGE_NODE_IDENTIFIER (DataTransfer.mk [])
    (FlowEnv.mk 0 0 (fun q => q)) (FlowState.mk initialRegistry [] [] none)
    0 0 1 1 (by rfl) (by decide)

theorem claim8_witness :
    createNode initialRegistry "" (some { x := 0, y := 0 }) =
      Except.error "Node type is required" ∧
    ∃ n st', createNode initialRegistry MESSAGE_NODE_IDENTIFIER (some { x := 0, y := 0 }) =
      Except.ok (n, st') :=
  ⟨(claim8_createNode_errors initialRegistry "" (some { x := 0, y := 0 })).1 rfl,
    (claim8_createNode_errors initialRegistry MESSAGE_NODE_IDENTIFIER
      (some { x := 0, y := 0 })).2.2.2.1 (by decide) { x := 0, y := 0 } rfl⟩

theorem claim9_witness :
    ((runCreates initialRegistry
      [(MESSAGE_NODE_IDENTIFIER, { x := 0, y := 0 }),
        (SELECT_NODE_IDENTIFIER, { x := 1, y := 1 })]).1.map Node.id).Pairwise (· ≠ ·) ∧
    ((registryAt 2 1).messageFactory.counter = 1 + 1 ∧
      (registryAt 2 1).selectFactory.counter = 1) :=
  ⟨(claim9_ids_unique
      [(MESSAGE_NODE_IDENTIFIER, { x := 0, y := 0 }),
        (SELECT_NODE_IDENTIFIER, { x := 1, y := 1 })] 1 1 { x := 0, y := 0 }).1,
    (claim9_ids_unique
      [(MESSAGE_NODE_IDENTIFIER, { x := 0, y := 0 }),
        (SELECT_NODE_IDENTIFIER, { x := 1, y := 1 })] 1 1 { x := 0, y := 0 }).2.1
      ((registryAt 1 1).messageFactory.create { x := 0, y := 0 }).1 (registryAt 2 1) (by rfl)⟩

theorem claim10_witness :
    (onSelectionChange
      (FlowState.mk initialRegistry [] []
        (some (messageNodeFactory.create { x := 0, y := 0 }).1))
      [(messageNodeFactory.create { x := 0, y := 0 }).1]).selectedNode =
      some (messageNodeFactory.create { x := 0, y := 0 }).1 ∧
    (onNodesDelete
      (FlowState.mk initialRegistry [] []
        (some (messageNodeFactory.create { x := 0, y := 0 }).1))).selectedNode = none ∧
    ((FlowState.mk initialRegistry [] []
        (some (messageNodeFactory.create { x := 0, y := 0 }).1)).selectedNode = none ∨
      FlowEvent.nodesDelete = FlowEvent.nodesDelete) :=
  ⟨(claim10_selected_node
      (FlowState.mk initialRegistry [] []
        (some (messageNodeFactory.create { x := 0, y := 0 }).1))
      (messageNodeFactory.create { x := 0, y := 0 }).1 []
      (FlowEnv.mk 0 0 (fun q => q)) FlowEvent.nodesDelete).1,
    (claim10_selected_node
      (FlowState.mk initialRegistry [] []
        (some (messageNodeFactory.create { x := 0, y := 0 }).1))
      (messageNodeFactory.create { x := 0, y := 0 }).1 []
      (FlowEnv.mk 0 0 (fun q => q)) FlowEvent.nodesDelete).2.2.1,
    (claim10_selected_node
      (FlowState.mk initialRegistry [] []
        (some (messageNodeFactory.create { x := 0, y := 0 }).1))
      (messageNodeFactory.create { x := 0, y := 0 }).1 []
      (FlowEnv.mk 0 0 (fun q => q)) FlowEvent.nodesDelete).2.2.2 (by rfl)⟩

end NodeFlow
